import Mathlib

/-
  Shallow embedding of src/macro_log.py (Anonoei/macro_log), a leveled
  asynchronous logging module for a 3D-printer firmware command processor.

  Modelling conventions:
  - Python values that can be None are Option; a Python f-string renders
    None as the literal text "None" (pyShowOptStr below).
  - The record level field can hold, at runtime, Python None, a Level
    member, or (through the cmd_LOG slip) a raw string: PyLevel.
  - The two configured thresholds are stored back into the same attribute
    by __init__: an int that matched a Level value becomes that member,
    otherwise it stays an int, hence Sum Int Level.
  - _log is modelled as a pure function returning the ordered list of
    sink invocations (effects) it performed, plus an optional Python
    exception that terminated it early (Outcome).  Comparing an int
    threshold against a Level raises AttributeError in Python (int has
    no .value when Level.__ge__ is tried reflected), as does accessing
    .name on a str level; both are modelled as PyErr.attributeError.
  - The host (Klipper) objects gcmd / config / printer / gcode are
    external collaborators; their accessors are modelled from the spec's
    interface section (get / get_int / getint with bounds).
-/

namespace ML

/-- The Level enumeration of src/macro_log.py: TRACE=0, DEBUG=1, INFO=2,
WARN=3, ERROR=5 (deliberate gap at 4). -/
inductive Level
  | TRACE
  | DEBUG
  | INFO
  | WARN
  | ERROR
deriving DecidableEq

/-- Numeric value of each member (the Enum value in the source). -/
def Level.value : Level → Nat
  | .TRACE => 0
  | .DEBUG => 1
  | .INFO => 2
  | .WARN => 3
  | .ERROR => 5

/-- The member's name string, as Python's Enum .name attribute. -/
def Level.lvlName : Level → String
  | .TRACE => "TRACE"
  | .DEBUG => "DEBUG"
  | .INFO => "INFO"
  | .WARN => "WARN"
  | .ERROR => "ERROR"

/-- Iteration order of `for lvl in Level` (definition order). -/
def levelMembers : List Level := [.TRACE, .DEBUG, .INFO, .WARN, .ERROR]

/-- A Python value that may sit in the LogVars.level slot at runtime:
None, an actual Level member, or a raw string (what cmd_LOG leaves there
when the LVL name matches no member). -/
inductive PyLevel
  | null
  | ofLevel (l : Level)
  | ofStr (s : String)
deriving DecidableEq

def toPyLevel : Option Level → PyLevel
  | none => .null
  | some l => .ofLevel l

/-- LogVars of src/macro_log.py: one log record. `display`/`notify` are
stored as ints in Python and only ever used for truthiness, so they are
embedded as the Bool (value != 0). -/
structure LogVars where
  level : PyLevel
  lvName : Option String
  msg : String
  display : Bool
  notify : Bool
deriving DecidableEq

/-- Python f-string rendering of an Option String: None prints as the
literal text "None". -/
def pyShowOptStr : Option String → String
  | none => "None"
  | some s => s

/-- Rendered line for a record without a level (src line 122):
f-string name: msg. -/
def renderPlain (nm : Option String) (msg : String) : String :=
  pyShowOptStr nm ++ ": " ++ msg

/-- Rendered line for a leveled record (src line 125):
f-string LEVELNAME [name]: msg. -/
def renderTagged (l : Level) (nm : Option String) (msg : String) : String :=
  l.lvlName ++ " [" ++ pyShowOptStr nm ++ "]: " ++ msg

/-- The synthetic display command issued for display records
(src line 130). -/
def displayCmd (message : String) : String :=
  "SET_DISPLAY_TEXT MSG=\"" ++ message ++ "\""

/-- One synchronous sink invocation performed by the dispatcher.
commandError models the call self.printer.command_error(message)
(the host capability the spec names raiseCommandError: abort the
in-flight command). -/
inductive Effect
  | enqueueFile (line : String)
  | displayUpdate (cmd : String)
  | respondError (text : String)
  | commandError (text : String)
  | respondInfo (text : String)
deriving DecidableEq

def Effect.isEnqueue : Effect → Bool
  | .enqueueFile _ => true
  | _ => false

def Effect.isDisplay : Effect → Bool
  | .displayUpdate _ => true
  | _ => false

def Effect.isRespondErr : Effect → Bool
  | .respondError _ => true
  | _ => false

/-- A Python exception terminating _log / a command handler early. -/
inductive PyErr
  | attributeError
  | missingArgument
deriving DecidableEq

/-- Result of running a dispatcher entry point: the sink invocations that
happened, in order, and the exception (if any) that aborted it. -/
structure Outcome where
  effects : List Effect
  error : Option PyErr
deriving DecidableEq

/-- Dispatcher configuration after __init__'s resolution loop: each
threshold is either the resolved Level member or the raw config int
that matched no member (the value 4 in the gap). -/
structure Config where
  log_level : Sum Int Level
  log_file_level : Sum Int Level
deriving DecidableEq

/-- The __init__ resolution loop (src lines 101-105):
for lvl in Level: if self.log_level == lvl.value: self.log_level = lvl.
Once reassigned to a member, Enum equality against an int is False, so
the value stays; an int matching no member (4) stays an int. -/
def resolveLevel (n : Int) : Sum Int Level :=
  levelMembers.foldl
    (fun acc l =>
      match acc with
      | .inl m => if m = (l.value : Int) then .inr l else acc
      | .inr _ => acc)
    (.inl n)

/-- Modelled from the spec: the host config accessor
getInt(key, default, min, max) used at load (src lines 96-97) — absent
key yields the default, a configured value outside [minval, maxval] is
rejected at load time with an error. The accessor itself is Klipper's,
not part of this repository. -/
def getint (value : Option Int) (dflt minval maxval : Int) : Except String Int :=
  match value with
  | none => .ok dflt
  | some v =>
      if minval ≤ v ∧ v ≤ maxval then .ok v
      else .error "Option must be between minval and maxval"

/-- Threshold part of MacroLog.__init__ (src lines 96-105): read both
ints with bounds 0..4, then run the resolution loop on each. -/
def MLog.init (log_level_cfg log_file_level_cfg : Option Int) : Except String Config := do
  let ll ← getint log_level_cfg 2 0 4
  let fl ← getint log_file_level_cfg 0 0 4
  pure ⟨resolveLevel ll, resolveLevel fl⟩

/-- MacroLog._log (src lines 120-143), as the ordered effect sequence it
performs.  Faithful points: a str level raises AttributeError rendering
lv.level.name before anything else; an unresolved int threshold raises
AttributeError when compared against a Level (reflected Level.__ge__
reads .value off the int); level-None records short-circuit line 132 and
never touch the console threshold; the notify prefix is applied before
the WARN/ERROR special cases; WARN and ERROR return without
respond_info. -/
def MLog.log (cfg : Config) (lv : LogVars) : Outcome :=
  match lv.level with
  | .ofStr _ => ⟨[], some .attributeError⟩
  | .null =>
      let message := renderPlain lv.lvName lv.msg
      let es := [Effect.enqueueFile message]
      let es := es ++ (if lv.display then [Effect.displayUpdate (displayCmd message)] else [])
      let message := if lv.notify then "MR_NOTIFY | " ++ message else message
      ⟨es ++ [Effect.respondInfo message], none⟩
  | .ofLevel l =>
      let message := renderTagged l lv.lvName lv.msg
      match cfg.log_file_level with
      | .inl _ => ⟨[], some .attributeError⟩
      | .inr fl =>
          let es := if fl.value ≤ l.value then [Effect.enqueueFile message] else []
          let es := es ++ (if lv.display then [Effect.displayUpdate (displayCmd message)] else [])
          match cfg.log_level with
          | .inl _ => ⟨es, some .attributeError⟩
          | .inr cl =>
              if cl.value ≤ l.value then
                let message := if lv.notify then "MR_NOTIFY | " ++ message else message
                if l = .WARN then ⟨es ++ [Effect.respondError message], none⟩
                else if l = .ERROR then ⟨es ++ [Effect.commandError message], none⟩
                else ⟨es ++ [Effect.respondInfo message], none⟩
              else ⟨es, none⟩

/-- Python str.upper() on the ASCII strings involved (level names):
character-wise uppercasing. -/
def strUpper (s : String) : String := ⟨s.data.map Char.toUpper⟩

def digitVal (c : Char) : Option Nat :=
  if '0' ≤ c ∧ c ≤ '9' then some (c.toNat - 48) else none

def parseNatChars : List Char → Option Nat
  | [] => none
  | [c] => digitVal c
  | c :: rest =>
      match digitVal c, parseNatChars rest with
      | some d, some n => some (d * 10 ^ rest.length + n)
      | _, _ => none

/-- Python int(s) for plain decimal literals, as used by the host's
getInt on argument values. -/
def pyInt (s : String) : Option Int :=
  match s.data with
  | '-' :: rest => (parseNatChars rest).map (fun n => -(n : Int))
  | l => (parseNatChars l).map (fun n => (n : Int))

/-- Modelled from the spec: the host's parsed-argument accessor
(get(key, default)); params is the command's key/value argument list. -/
structure GCmd where
  params : List (String × String)
deriving DecidableEq

def GCmd.get (g : GCmd) (key : String) (dflt : Option String) : Option String :=
  match g.params.lookup key with
  | some v => some v
  | none => dflt

/-- Modelled from the spec: getInt(key, default) on the argument
accessor; absent key yields the default. -/
def GCmd.get_int (g : GCmd) (key : String) (dflt : Int) : Int :=
  match g.params.lookup key with
  | some v => (pyInt v).getD dflt
  | none => dflt

/-- LogVars.parse (src lines 31-37).  gcmd.get('MSG') has no default:
an absent MSG raises in the host accessor, so no record is built
(Option none, surfaced as PyErr.missingArgument by the handlers). -/
def LogVars.parse (g : GCmd) (level : PyLevel) : Option LogVars :=
  let nm := g.get "NAME" none
  match g.params.lookup "MSG" with
  | none => none
  | some m =>
      some ⟨level, nm, m, g.get_int "DISPLAY" 0 != 0, g.get_int "NOTIFY" 0 != 0⟩

/-- Run a command body self._log(LogVars.parse(gcmd, lvl)): a missing
required MSG aborts the invocation before _log. -/
def runParsed (cfg : Config) (g : GCmd) (level : PyLevel) : Outcome :=
  match LogVars.parse g level with
  | none => ⟨[], some .missingArgument⟩
  | some lv => MLog.log cfg lv

/-- One iteration of the loop of cmd_LOG (src lines 186-188):
if l.name == lvl: lvl = l.  Once lvl holds a member, the comparison
str == Level is False, so it stays. -/
def levelScanStep (acc : PyLevel) (l : Level) : PyLevel :=
  match acc with
  | .ofStr s => if l.lvlName = s then .ofLevel l else acc
  | _ => acc

/-- The loop of cmd_LOG over the members: lvl starts as the upper-cased
string and is reassigned to the matching member, if any.  The result is
never Python None. -/
def levelFromName (u : String) : PyLevel :=
  levelMembers.foldl levelScanStep (.ofStr u)

/-- MacroLog.cmd_LOG (src lines 182-192).  The `if lvl is None`
diagnostic branch of the source is kept verbatim: it can only fire if
the loop left lvl as None, which levelFromName never does, so an
unmatched name flows into LogVars.parse as a raw string. -/
def MLog.cmd_LOG (cfg : Config) (g : GCmd) : Outcome :=
  match g.get "LVL" none with
  | none => runParsed cfg g .null
  | some s =>
      let lvl := levelFromName (strUpper s)
      if lvl = PyLevel.null then
        MLog.log cfg ⟨.null, some "MACRO_LOG", "Failed to find log level from None", false, false⟩
      else
        runParsed cfg g lvl

def MLog.cmd_TRACE (cfg : Config) (g : GCmd) : Outcome := runParsed cfg g (.ofLevel .TRACE)

def MLog.cmd_DEBUG (cfg : Config) (g : GCmd) : Outcome := runParsed cfg g (.ofLevel .DEBUG)

def MLog.cmd_INFO (cfg : Config) (g : GCmd) : Outcome := runParsed cfg g (.ofLevel .INFO)

def MLog.cmd_WARN (cfg : Config) (g : GCmd) : Outcome := runParsed cfg g (.ofLevel .WARN)

def MLog.cmd_ERROR (cfg : Config) (g : GCmd) : Outcome := runParsed cfg g (.ofLevel .ERROR)

def MLog.cmd_PRINT (cfg : Config) (g : GCmd) : Outcome := runParsed cfg g .null

/-- The 9-space continuation indent of MultiLineFormatter
(src line 81: indent = nine spaces). -/
def indent9 : List Char := List.replicate 9 ' '

/-- Python str.replace of the single-character pattern newline by
newline-plus-indent (src line 85): every newline occurrence gets the
indent inserted after it. -/
def pyReplaceNl : List Char → List Char
  | [] => []
  | c :: rest =>
      if c = '\n' then '\n' :: (indent9 ++ pyReplaceNl rest)
      else c :: pyReplaceNl rest

/-- Python truthiness of record.exc_text (None or empty string are
falsy). -/
def pyTruthy : Option String → Bool
  | none => false
  | some s => !s.isEmpty

/-- MultiLineFormatter.format (src lines 80-85), applied to the text
produced by the base formatter and to the record's exc_text. -/
def MultiLineFormatter.format (formatted : String) (exc_text : Option String) : String :=
  if pyTruthy exc_text then formatted
  else ⟨pyReplaceNl formatted.data⟩

/-- QueueListener._bg_thread (src lines 67-72): dequeue in FIFO order,
stop at the None sentinel, otherwise hand the record to
handler.handle.  The argument list is the FIFO sequence the queue
delivers. -/
def QueueListener.bgThread {α β : Type} (handle : α → β) : List (Option α) → List β
  | [] => []
  | none :: _ => []
  | some r :: rest => handle r :: QueueListener.bgThread handle rest

/-- The rendered line of a record as a function of its (None-or-member)
level: the branch _log takes before any notify prefixing. -/
def renderOf : Option Level → Option String → String → String
  | none, nm, msg => renderPlain nm msg
  | some l, nm, msg => renderTagged l nm msg

/-- C1: a record with level ERROR, under any resolved thresholds, always
passes the interactive decision, ends its dispatch with exactly the
command-error signal (the notify-prefixed rendered line), and performs
no plain and no error-style response call; nothing runs after the
signal. -/
theorem C1_error_level_aborts (cl fl : Level) (nm : Option String) (msg : String) (d n : Bool) :
    MLog.log ⟨Sum.inr cl, Sum.inr fl⟩ ⟨PyLevel.ofLevel .ERROR, nm, msg, d, n⟩
      = ⟨Effect.enqueueFile (renderTagged .ERROR nm msg)
          :: ((if d then [Effect.displayUpdate (displayCmd (renderTagged .ERROR nm msg))] else [])
              ++ [Effect.commandError
                    (if n then "MR_NOTIFY | " ++ renderTagged .ERROR nm msg
                     else renderTagged .ERROR nm msg)]),
         none⟩
  ∧ ∀ t, Effect.respondInfo t
           ∉ (MLog.log ⟨Sum.inr cl, Sum.inr fl⟩ ⟨PyLevel.ofLevel .ERROR, nm, msg, d, n⟩).effects
       ∧ Effect.respondError t
           ∉ (MLog.log ⟨Sum.inr cl, Sum.inr fl⟩ ⟨PyLevel.ofLevel .ERROR, nm, msg, d, n⟩).effects := by
  constructor
  · cases cl <;> cases fl <;> cases d <;> cases n <;> rfl
  · intro t
    cases cl <;> cases fl <;> cases d <;> cases n <;>
      exact ⟨by simp [MLog.log, Level.value], by simp [MLog.log, Level.value]⟩

/-- C1 witness: concrete ERROR dispatch ends in the command-error
signal only. -/
theorem C1_error_level_aborts_w :
    MLog.log ⟨Sum.inr Level.INFO, Sum.inr Level.TRACE⟩
        ⟨PyLevel.ofLevel .ERROR, some "x", "m", false, false⟩
      = ⟨[Effect.enqueueFile (renderTagged .ERROR (some "x") "m"),
          Effect.commandError (renderTagged .ERROR (some "x") "m")], none⟩ :=
  (C1_error_level_aborts Level.INFO Level.TRACE (some "x") "m" false false).1

/-- C5: a WARN record that passes the console threshold always ends its
dispatch in the error-style response (once), and no plain response is
ever issued for it, whatever the notify flag. -/
theorem C5_warn_error_style (cl fl : Level) (nm : Option String) (msg : String) (d n : Bool)
    (h : cl.value ≤ Level.WARN.value) :
    (MLog.log ⟨Sum.inr cl, Sum.inr fl⟩ ⟨PyLevel.ofLevel .WARN, nm, msg, d, n⟩).effects.getLast?
      = some (Effect.respondError (if n then "MR_NOTIFY | " ++ renderTagged .WARN nm msg
                                   else renderTagged .WARN nm msg))
  ∧ (MLog.log ⟨Sum.inr cl, Sum.inr fl⟩ ⟨PyLevel.ofLevel .WARN, nm, msg, d, n⟩).effects.countP
      Effect.isRespondErr = 1
  ∧ ∀ t, Effect.respondInfo t
           ∉ (MLog.log ⟨Sum.inr cl, Sum.inr fl⟩ ⟨PyLevel.ofLevel .WARN, nm, msg, d, n⟩).effects := by
  cases cl <;> first
    | exact absurd h (by decide)
    | cases fl <;> cases d <;> cases n <;>
        exact ⟨rfl, rfl, fun t => by simp [MLog.log, Level.value]⟩

/-- C5 witness: concrete WARN dispatch under a passing threshold routes
to the error-style response. -/
theorem C5_warn_error_style_w :
    (MLog.log ⟨Sum.inr Level.INFO, Sum.inr Level.TRACE⟩
        ⟨PyLevel.ofLevel .WARN, some "x", "m", false, true⟩).effects.getLast?
      = some (Effect.respondError ("MR_NOTIFY | " ++ renderTagged .WARN (some "x") "m")) :=
  (C5_warn_error_style Level.INFO Level.TRACE (some "x") "m" false true (by decide)).1

/-- C10: when notify is set, the notify prefix is applied before the
WARN/ERROR special cases: a WARN passing the console threshold sends
the prefixed text to the error-style response, and an ERROR sends the
prefixed text to the command-error signal. -/
theorem C10_notify_before_special (cl fl : Level) (nm : Option String) (msg : String) (d : Bool) :
    (cl.value ≤ Level.WARN.value →
       Effect.respondError ("MR_NOTIFY | " ++ renderTagged .WARN nm msg)
         ∈ (MLog.log ⟨Sum.inr cl, Sum.inr fl⟩ ⟨PyLevel.ofLevel .WARN, nm, msg, d, true⟩).effects)
  ∧ Effect.commandError ("MR_NOTIFY | " ++ renderTagged .ERROR nm msg)
      ∈ (MLog.log ⟨Sum.inr cl, Sum.inr fl⟩ ⟨PyLevel.ofLevel .ERROR, nm, msg, d, true⟩).effects := by
  constructor
  · intro h
    cases cl <;> first
      | exact absurd h (by decide)
      | cases fl <;> cases d <;> simp [MLog.log, Level.value]
  · cases cl <;> cases fl <;> cases d <;> simp [MLog.log, Level.value]

/-- C10 witness: a notifying WARN record's error-style response carries
the prefix at a concrete passing threshold. -/
theorem C10_notify_before_special_w :
    Effect.respondError ("MR_NOTIFY | " ++ renderTagged .WARN (some "x") "m")
      ∈ (MLog.log ⟨Sum.inr Level.TRACE, Sum.inr Level.TRACE⟩
          ⟨PyLevel.ofLevel .WARN, some "x", "m", false, true⟩).effects :=
  (C10_notify_before_special Level.TRACE Level.TRACE (some "x") "m" false).1 (by decide)

/-- C4: the file queue receives a record exactly when its level is None
(rendered without a level tag) or at or above the file threshold
(rendered with the level tag); with fileLevel INFO a TRACE record is
never enqueued and a WARN record always is. -/
theorem C4_file_sink_decision (cl fl : Level) (olvl : Option Level) (nm : Option String)
    (msg : String) (d n : Bool) :
    ((MLog.log ⟨Sum.inr cl, Sum.inr fl⟩ ⟨toPyLevel olvl, nm, msg, d, n⟩).effects.countP
        Effect.isEnqueue
      = match olvl with
        | none => 1
        | some l => if fl.value ≤ l.value then 1 else 0)
  ∧ Effect.enqueueFile (renderPlain nm msg)
      ∈ (MLog.log ⟨Sum.inr cl, Sum.inr fl⟩ ⟨PyLevel.null, nm, msg, d, n⟩).effects
  ∧ (∀ l : Level, fl.value ≤ l.value →
       Effect.enqueueFile (renderTagged l nm msg)
         ∈ (MLog.log ⟨Sum.inr cl, Sum.inr fl⟩ ⟨PyLevel.ofLevel l, nm, msg, d, n⟩).effects)
  ∧ (∀ line, Effect.enqueueFile line
       ∉ (MLog.log ⟨Sum.inr cl, Sum.inr Level.INFO⟩ ⟨PyLevel.ofLevel .TRACE, nm, msg, d, n⟩).effects)
  ∧ Effect.enqueueFile (renderTagged .WARN nm msg)
      ∈ (MLog.log ⟨Sum.inr cl, Sum.inr Level.INFO⟩ ⟨PyLevel.ofLevel .WARN, nm, msg, d, n⟩).effects := by
  refine ⟨?_, ?_, ?_, ?_, ?_⟩
  · cases olvl with
    | none => cases cl <;> cases fl <;> cases d <;> cases n <;> rfl
    | some l => cases l <;> cases cl <;> cases fl <;> cases d <;> cases n <;> rfl
  · cases cl <;> cases fl <;> cases d <;> cases n <;> simp [MLog.log, Level.value]
  · intro l h
    cases l <;> cases fl <;> first
      | exact absurd h (by decide)
      | cases cl <;> cases d <;> cases n <;> simp [MLog.log, Level.value]
  · intro line
    cases cl <;> cases d <;> cases n <;> simp [MLog.log, Level.value]
  · cases cl <;> cases d <;> cases n <;> simp [MLog.log, Level.value]

/-- C4 witness: with fileLevel INFO, a WARN record is enqueued with its
tagged rendering. -/
theorem C4_file_sink_decision_w :
    Effect.enqueueFile (renderTagged Level.WARN (some "x") "m")
      ∈ (MLog.log ⟨Sum.inr Level.INFO, Sum.inr Level.INFO⟩
          ⟨PyLevel.ofLevel Level.WARN, some "x", "m", false, false⟩).effects :=
  (C4_file_sink_decision Level.INFO Level.INFO none (some "x") "m" false false).2.2.1
    Level.WARN (by decide)

/-- C7: a record with the display flag set produces exactly one
display-update invocation, carrying the plain rendered message (before
notify prefixing and before WARN/ERROR special handling), whatever the
level, the notify flag and the two thresholds. -/
theorem C7_display_exactly_once (cl fl : Level) (olvl : Option Level) (nm : Option String)
    (msg : String) (n : Bool) :
    (MLog.log ⟨Sum.inr cl, Sum.inr fl⟩ ⟨toPyLevel olvl, nm, msg, true, n⟩).effects.countP
        Effect.isDisplay = 1
  ∧ Effect.displayUpdate (displayCmd (renderOf olvl nm msg))
      ∈ (MLog.log ⟨Sum.inr cl, Sum.inr fl⟩ ⟨toPyLevel olvl, nm, msg, true, n⟩).effects := by
  constructor
  · cases olvl with
    | none => cases cl <;> cases fl <;> cases n <;> rfl
    | some l => cases l <;> cases cl <;> cases fl <;> cases n <;> rfl
  · cases olvl with
    | none => cases cl <;> cases fl <;> cases n <;> simp [MLog.log, renderOf, Level.value, toPyLevel]
    | some l => cases l <;> cases cl <;> cases fl <;> cases n <;>
        simp [MLog.log, renderOf, Level.value, toPyLevel]

/-- C6: the drain worker handles every record delivered before the stop
sentinel, in FIFO order, and stops at the sentinel; nothing enqueued
before the sentinel is dropped. -/
theorem C6_drain_flushes_all_fifo {α β : Type} (handle : α → β) (rs : List α)
    (tail : List (Option α)) :
    QueueListener.bgThread handle (rs.map some ++ none :: tail) = rs.map handle := by
  induction rs with
  | nil => rfl
  | cons r rest ih => simpa [QueueListener.bgThread] using ih

/-- Helper: the newline substitution distributes over append. -/
theorem pyReplaceNl_append (a b : List Char) :
    pyReplaceNl (a ++ b) = pyReplaceNl a ++ pyReplaceNl b := by
  induction a with
  | nil => rfl
  | cons c rest ih =>
      by_cases h : c = '\n' <;> simp [pyReplaceNl, h, ih]

/-- Helper: text without a newline is left unchanged. -/
theorem pyReplaceNl_eq_self (a : List Char) (h : '\n' ∉ a) : pyReplaceNl a = a := by
  induction a with
  | nil => rfl
  | cons c rest ih =>
      rw [List.mem_cons] at h
      push_neg at h
      simp [pyReplaceNl, Ne.symm h.1, ih h.2]

/-- C8: without exception text the formatter inserts the fixed 9-space
indent after every line break of the formatted text (the two-line
message renders with its second line indented 9 spaces, text around a
break is rewritten on each side, break-free text is unchanged); with
truthy exception text the formatted text is returned verbatim. -/
theorem C8_formatter_indent (a b : List Char) (s : String) (e : Option String) :
    MultiLineFormatter.format "line1\nline2" none = "line1\n         line2"
  ∧ MultiLineFormatter.format ⟨a ++ '\n' :: b⟩ none
      = ⟨pyReplaceNl a ++ '\n' :: (indent9 ++ pyReplaceNl b)⟩
  ∧ ('\n' ∉ s.data → MultiLineFormatter.format s none = s)
  ∧ (pyTruthy e = true → MultiLineFormatter.format s e = s) := by
  refine ⟨by decide, ?_, ?_, ?_⟩
  · show (⟨pyReplaceNl (a ++ '\n' :: b)⟩ : String) = _
    rw [pyReplaceNl_append]
    rfl
  · intro h
    show (⟨pyReplaceNl s.data⟩ : String) = s
    rw [pyReplaceNl_eq_self s.data h]
  · intro h
    simp [MultiLineFormatter.format, h]

/-- C8 witness: a record carrying exception text passes through
verbatim, and a concrete break-free text is unchanged. -/
theorem C8_formatter_indent_w :
    MultiLineFormatter.format "tb" (some "trace") = "tb" :=
  (C8_formatter_indent [] [] "tb" (some "trace")).2.2.2 rfl

/-- Helper: the loop step never produces Python None. -/
theorem levelScanStep_ne_null (acc : PyLevel) (l : Level) (h : acc ≠ PyLevel.null) :
    levelScanStep acc l ≠ PyLevel.null := by
  cases acc with
  | null => exact absurd rfl h
  | ofLevel l2 => simp [levelScanStep]
  | ofStr s => by_cases hc : l.lvlName = s <;> simp [levelScanStep, hc]

/-- Helper: folding the loop step never produces Python None. -/
theorem foldl_levelScanStep_ne_null (ls : List Level) (acc : PyLevel) (h : acc ≠ PyLevel.null) :
    ls.foldl levelScanStep acc ≠ PyLevel.null := by
  induction ls generalizing acc with
  | nil => exact h
  | cons l rest ih => exact ih _ (levelScanStep_ne_null acc l h)

/-- C2: evaluation of _ML at LVL=FOO, MSG=hello — the code-bug path.
The loop leaves the unmatched name as the raw string FOO (never None,
so the diagnostic branch is dead), LogVars.parse builds a record
carrying that string as its level, and _log raises AttributeError
without logging any diagnostic. -/
theorem C2_unknown_level_crashes :
    levelFromName (strUpper "foo") = PyLevel.ofStr "FOO"
  ∧ LogVars.parse ⟨[("LVL", "FOO"), ("MSG", "hello")]⟩ (PyLevel.ofStr "FOO")
      = some ⟨PyLevel.ofStr "FOO", none, "hello", false, false⟩
  ∧ MLog.cmd_LOG ⟨Sum.inr Level.INFO, Sum.inr Level.TRACE⟩ ⟨[("LVL", "FOO"), ("MSG", "hello")]⟩
      = ⟨[], some PyErr.attributeError⟩
  ∧ ∀ s : String, levelFromName s ≠ PyLevel.null :=
  ⟨by decide, by decide, by decide,
   fun s => foldl_levelScanStep_ne_null levelMembers (.ofStr s) (by simp)⟩

/-- C3: evaluation of the load path at the gap value — the code-bug
path.  A threshold outside 0..4 is rejected at load, but the in-range
value 4 is accepted and left unresolved (no Level member has value 4),
and the failure then surfaces at log time: the first leveled record
raises AttributeError in the threshold comparison, after zero file
effects (unresolved file level) or after the record was already
enqueued (unresolved console level only). -/
theorem C3_gap_value_crashes_at_log_time :
    getint (some 5) 2 0 4 = Except.error "Option must be between minval and maxval"
  ∧ resolveLevel 4 = Sum.inl 4
  ∧ MLog.init (some 4) (some 4) = Except.ok ⟨Sum.inl 4, Sum.inl 4⟩
  ∧ MLog.log ⟨Sum.inl 4, Sum.inl 4⟩ ⟨PyLevel.ofLevel .INFO, some "n", "m", false, false⟩
      = ⟨[], some PyErr.attributeError⟩
  ∧ MLog.log ⟨Sum.inl 4, Sum.inr Level.TRACE⟩ ⟨PyLevel.ofLevel .INFO, some "n", "m", false, false⟩
      = ⟨[Effect.enqueueFile (renderTagged .INFO (some "n") "m")], some PyErr.attributeError⟩
  ∧ MLog.log ⟨Sum.inr Level.INFO, Sum.inr Level.TRACE⟩
        ⟨PyLevel.null, some "n", "m", false, false⟩
      = ⟨[Effect.enqueueFile (renderPlain (some "n") "m"),
          Effect.respondInfo (renderPlain (some "n") "m")], none⟩ :=
  ⟨rfl, by decide, rfl, by decide, by decide, by decide⟩

/-- C9 counterexample: with NAME absent, the record's name is Python
None, and the rendered line is the literal text None: hi — not a line
with an empty source tag. -/
theorem C9_none_rendered_literally :
    LogVars.parse ⟨[("MSG", "hi")]⟩ PyLevel.null
      = some ⟨PyLevel.null, none, "hi", false, false⟩
  ∧ (MLog.log ⟨Sum.inr Level.INFO, Sum.inr Level.TRACE⟩
        ⟨PyLevel.null, none, "hi", false, false⟩).effects
      = [Effect.enqueueFile "None: hi", Effect.respondInfo "None: hi"]
  ∧ "None: hi" ≠ ": hi" :=
  ⟨by decide, by decide, by decide⟩

/-- C9 amended: with NAME absent the record's name defaults to absent
(Python None), and the rendered file/console line then shows the
literal placeholder text None in the source-tag position. -/
theorem C9_name_defaults_absent (msg : String) (l : Level) :
    (LogVars.parse ⟨[("MSG", msg)]⟩ PyLevel.null).map LogVars.lvName = some none
  ∧ renderPlain none msg = "None: " ++ msg
  ∧ renderTagged l none msg = l.lvlName ++ " [None]: " ++ msg := by
  refine ⟨rfl, rfl, ?_⟩
  cases l <;> rfl

end ML
